import Mathlib

/-!
Verification of the automation orchestration engine of `bootCasosV2`.

The definitions below are a shallow embedding of the Python sources under
`src/automatizacion/`: the error classifier (`clasificador_errores.py`), the
retry manager (`gestor_reintentos.py`), the session/progress model
(`estado_automatizacion.py`, `gestor_sesion.py`), the per-context controller
(`controlador_automatizacion.py`), the recovery service
(`servicio_recuperacion.py`) and the dual facade
(`controlador_automatizacion_principal.py`).

Modelling conventions:
* Python exceptions are modelled as a pair of strings: the rendered message
  (`str(error)`) and the exception type name (`type(error).__name__`).
* Wall-clock timestamps are abstract integers (minutes); `datetime.now()`
  becomes an explicit `ahora` parameter threaded to the functions that read it.
* Python `dict`s keyed by context / isoformat timestamp are modelled as lists
  of entries carrying those keys (insertion order preserved, which is also the
  guaranteed iteration order of Python dicts).
* Logging and `asyncio.sleep` are effect-free for the verified properties and
  are dropped; collaborator calls (browser, navigation, login) are oracles
  passed in as explicit boolean/outcome parameters.
* Python floats in the retry table (1.5, 1.2) are modelled as rationals;
  `int()` truncation of the (always non-negative) backoff value is `Int.toNat`
  of the floor, and the `OverflowError` a float power raises at the top of the
  IEEE double range (2^1024) is modelled by an explicit overflow predicate
  (the integer-literal multipliers 1 and 2 use exact integer powers and never
  overflow).
* The standard-library `logging.Logger` method set is modelled explicitly,
  because `_log` dispatches with `getattr(self.logger, nivel)` and one caller
  passes the nonexistent level `"success"`.
-/

/-- Embeds `TipoError` enum from `clasificador_errores.py`. -/
inductive TipoError where
  | NAVEGADOR_CERRADO
  | SESION_PERDIDA
  | ELEMENTO_NO_ENCONTRADO
  | TIMEOUT_RED
  | TIMEOUT_ELEMENTO
  | CAPTCHA_FALLIDO
  | CREDENCIALES_INVALIDAS
  | ERROR_API
  | ERROR_NAVEGACION
  | ERROR_DESCONOCIDO
  deriving DecidableEq, Repr

/-- Embeds `GravedadError` enum from `clasificador_errores.py`. -/
inductive GravedadError where
  | CRITICO
  | ALTO
  | MEDIO
  | BAJO
  deriving DecidableEq, Repr

/-- A raised Python exception, reduced to what the classifier inspects:
`str(error)` and `type(error).__name__`. -/
structure Exc where
  mensaje : String
  tipoNombre : String
  deriving DecidableEq, Repr

/-- Boolean "is a leading segment of" on character lists. -/
def esPrefijo : List Char → List Char → Bool
  | [], _ => true
  | _ :: _, [] => false
  | a :: pat, b :: s => a == b && esPrefijo pat s

/-- Boolean substring search on character lists (Python's `pat in s`). -/
def contieneAux (pat : List Char) : List Char → Bool
  | [] => pat.isEmpty
  | c :: rest => esPrefijo pat (c :: rest) || contieneAux pat rest

/-- Python's substring test `pat in s`. -/
def contiene (s pat : String) : Bool :=
  contieneAux pat.toList s.toList

/-- Embeds `self.patrones_error` of `ClasificadorErrores`, in the dict's insertion
order (which is its iteration order). -/
def patrones_error : List (String × TipoError) :=
  [ ("invalid session", .SESION_PERDIDA),
    ("session not created", .NAVEGADOR_CERRADO),
    ("no such session", .SESION_PERDIDA),
    ("chrome not reachable", .NAVEGADOR_CERRADO),
    ("session timed out", .SESION_PERDIDA),
    ("disconnected", .NAVEGADOR_CERRADO),
    ("element not found", .ELEMENTO_NO_ENCONTRADO),
    ("no such element", .ELEMENTO_NO_ENCONTRADO),
    ("element not visible", .ELEMENTO_NO_ENCONTRADO),
    ("element not clickable", .ELEMENTO_NO_ENCONTRADO),
    ("timeout", .TIMEOUT_ELEMENTO),
    ("timed out", .TIMEOUT_ELEMENTO),
    ("connection timeout", .TIMEOUT_RED),
    ("captcha", .CAPTCHA_FALLIDO),
    ("login failed", .CREDENCIALES_INVALIDAS),
    ("invalid credentials", .CREDENCIALES_INVALIDAS),
    ("api error", .ERROR_API),
    ("connection error", .ERROR_API),
    ("404", .ERROR_API),
    ("500", .ERROR_API),
    ("navigation", .ERROR_NAVEGACION),
    ("page not found", .ERROR_NAVEGACION) ]

/-- Python's `str.lower()` (ASCII case folding, which covers every pattern
and message the classifier handles). -/
def aMinusculas (s : String) : String :=
  ⟨s.data.map Char.toLower⟩

/-- The match test of the classifier loop body:
`patron in mensaje_error or patron in tipo_error_str`. -/
def coincide (e : Exc) (patron : String) : Bool :=
  contiene (aMinusculas e.mensaje) patron || contiene (aMinusculas e.tipoNombre) patron

/-- The pattern scan of `ClasificadorErrores.clasificar`: first match wins. -/
def buscarPatron (e : Exc) : List (String × TipoError) → Option TipoError
  | [] => none
  | (patron, tipo) :: resto =>
    if coincide e patron then some tipo else buscarPatron e resto

/-- Embeds `ClasificadorErrores._clasificar_por_tipo_excepcion`: exception-type-name
lookup, falling back to `ERROR_DESCONOCIDO`. -/
def clasificar_por_tipo_excepcion (e : Exc) : TipoError :=
  if e.tipoNombre = "TimeoutError" then .TIMEOUT_ELEMENTO
  else if e.tipoNombre = "ConnectionError" then .TIMEOUT_RED
  else if e.tipoNombre = "NoSuchElementException" then .ELEMENTO_NO_ENCONTRADO
  else if e.tipoNombre = "ElementNotVisibleException" then .ELEMENTO_NO_ENCONTRADO
  else if e.tipoNombre = "WebDriverException" then .NAVEGADOR_CERRADO
  else if e.tipoNombre = "InvalidSessionIdException" then .SESION_PERDIDA
  else .ERROR_DESCONOCIDO

/-- Embeds `ClasificadorErrores.clasificar`: ordered substring patterns over the
lower-cased message and type name, then the type-name table, then
`ERROR_DESCONOCIDO`. -/
def clasificar (e : Exc) : TipoError :=
  match buscarPatron e patrones_error with
  | some tipo => tipo
  | none => clasificar_por_tipo_excepcion e

/-- Embeds `ClasificadorErrores.obtener_estrategia_recuperacion`: strategy-name table. -/
def obtener_estrategia_recuperacion : TipoError → String
  | .NAVEGADOR_CERRADO => "reiniciar_navegador_completo"
  | .SESION_PERDIDA => "reiniciar_sesion"
  | .ELEMENTO_NO_ENCONTRADO => "recargar_pagina"
  | .TIMEOUT_RED => "esperar_y_reintentar"
  | .TIMEOUT_ELEMENTO => "recargar_y_buscar"
  | .CAPTCHA_FALLIDO => "reintentar_captcha"
  | .CREDENCIALES_INVALIDAS => "verificar_credenciales"
  | .ERROR_API => "verificar_conexion_api"
  | .ERROR_NAVEGACION => "navegar_desde_inicio"
  | .ERROR_DESCONOCIDO => "reintentar_generico"

/-! ## Retry manager (`gestor_reintentos.py`) -/

/-- Embeds the `max_reintentos` column of `GestorReintentos.config_reintentos`. -/
def max_reintentos : TipoError → Nat
  | .NAVEGADOR_CERRADO => 3
  | .SESION_PERDIDA => 3
  | .ELEMENTO_NO_ENCONTRADO => 3
  | .TIMEOUT_RED => 5
  | .TIMEOUT_ELEMENTO => 3
  | .CAPTCHA_FALLIDO => 2
  | .CREDENCIALES_INVALIDAS => 1
  | .ERROR_API => 3
  | .ERROR_NAVEGACION => 2
  | .ERROR_DESCONOCIDO => 2

/-- Embeds the `tiempo_espera` column (base delay in seconds). -/
def tiempo_espera : TipoError → ℚ
  | .NAVEGADOR_CERRADO => 5
  | .SESION_PERDIDA => 3
  | .ELEMENTO_NO_ENCONTRADO => 1
  | .TIMEOUT_RED => 10
  | .TIMEOUT_ELEMENTO => 2
  | .CAPTCHA_FALLIDO => 1
  | .CREDENCIALES_INVALIDAS => 0
  | .ERROR_API => 5
  | .ERROR_NAVEGACION => 3
  | .ERROR_DESCONOCIDO => 5

/-- Embeds the `incremento_espera` column (backoff multiplier). -/
def incremento_espera : TipoError → ℚ
  | .NAVEGADOR_CERRADO => 2
  | .SESION_PERDIDA => 3 / 2
  | .ELEMENTO_NO_ENCONTRADO => 1
  | .TIMEOUT_RED => 6 / 5
  | .TIMEOUT_ELEMENTO => 1
  | .CAPTCHA_FALLIDO => 1
  | .CREDENCIALES_INVALIDAS => 1
  | .ERROR_API => 3 / 2
  | .ERROR_NAVEGACION => 1
  | .ERROR_DESCONOCIDO => 1

/-- Embeds the `reintentos_inmediatos` column. -/
def reintentos_inmediatos : TipoError → Nat
  | .NAVEGADOR_CERRADO => 0
  | .SESION_PERDIDA => 0
  | .ELEMENTO_NO_ENCONTRADO => 1
  | .TIMEOUT_RED => 0
  | .TIMEOUT_ELEMENTO => 1
  | .CAPTCHA_FALLIDO => 0
  | .CREDENCIALES_INVALIDAS => 0
  | .ERROR_API => 0
  | .ERROR_NAVEGACION => 0
  | .ERROR_DESCONOCIDO => 0

/-- One record of `GestorReintentos.historial_reintentos`: the nested dict
`historial[contexto][timestamp] = {tipo_error, intentos, timestamp}` is
modelled as a flat list of entries carrying both keys. -/
structure Entrada where
  contexto : String
  timestamp : ℤ
  tipo_error : TipoError
  intentos : Nat
  deriving DecidableEq, Repr

/-- The retry history owned by one `GestorReintentos` instance. -/
abbrev Historial := List Entrada

/-- Embeds `GestorReintentos._registrar_intento`: append one record keyed by the
current timestamp. -/
def registrar_intento (hist : Historial) (contexto : String)
    (tipo : TipoError) (intento : Nat) (ahora : ℤ) : Historial :=
  hist ++ [⟨contexto, ahora, tipo, intento⟩]

/-- Embeds `GestorReintentos.puede_reintentar`: true iff the attempt number is below
the kind's `max_reintentos`; when true, the attempt is recorded into the
context's history (every `TipoError` has a config entry, so the missing-config
branch returning false is unreachable). Returns the decision together with the
updated history. -/
def puede_reintentar (hist : Historial) (tipo : TipoError)
    (intento_actual : Nat) (contexto : String) (ahora : ℤ) : Bool × Historial :=
  if intento_actual < max_reintentos tipo then
    (true, registrar_intento hist contexto tipo intento_actual ahora)
  else
    (false, hist)

/-- Whether the `incremento_espera` entry is written as a float literal in
the source dict (1.5 or 1.2). The other entries are the int literals 1 and 2,
for which Python computes an exact arbitrary-precision integer power. -/
def incremento_flotante : TipoError → Bool
  | .SESION_PERDIDA => true
  | .TIMEOUT_RED => true
  | .ERROR_API => true
  | _ => false

/-- Whether Python's `incremento ** (intento - inmediatos - 1)` raises
`OverflowError` inside `calcular_tiempo_espera`: only float powers can
overflow, and a float power overflows when it reaches the top of the IEEE
double range, `2^1024`. The threshold is modelled with exact rationals; for
every table multiplier the power is more than 20% away from `2^1024` at the
attempt numbers adjacent to the threshold (for 1.5 the margin is a factor
`2^0.27`, for 1.2 a factor `1.005`), far beyond the rounding error of the C
`pow`, so the modelled threshold is the program's. -/
def desbordamiento (tipo : TipoError) (intento : Nat) : Prop :=
  incremento_flotante tipo = true ∧
  (2 : ℚ) ^ 1024 ≤ incremento_espera tipo ^ (intento - reintentos_inmediatos tipo - 1)

instance (tipo : TipoError) (intento : Nat) : Decidable (desbordamiento tipo intento) := by
  unfold desbordamiento
  infer_instance

/-- Embeds `GestorReintentos.calcular_tiempo_espera`: 0 for immediate retries,
otherwise `tiempo_espera * incremento_espera ^ (intento - inmediatos - 1)`
capped at 60 seconds and truncated with `int()` (the value is non-negative,
so truncation is the floor). When the float power overflows, the
`OverflowError` is caught by the method's `except` handler, which returns the
fallback of 5 seconds. A finite float power whose product with the base
overflows to infinity raises nothing and is still capped at 60, as in the
model. -/
def calcular_tiempo_espera (tipo : TipoError) (intento : Nat) : Nat :=
  if intento ≤ reintentos_inmediatos tipo then 0
  else if desbordamiento tipo intento then 5
  else
    let tiempo_calculado : ℚ :=
      tiempo_espera tipo * incremento_espera tipo ^ (intento - reintentos_inmediatos tipo - 1)
    let tiempo_final : ℚ := min tiempo_calculado 60
    (Int.floor tiempo_final).toNat

/-- Embeds `GestorReintentos.debe_abortar`: if the context has no history entry,
return false; otherwise sum the `intentos` fields of the context's records
whose timestamp falls within the trailing window, and abort iff the sum
exceeds 10. -/
def debe_abortar (hist : Historial) (contexto : String)
    (ventana_tiempo_minutos : ℤ) (ahora : ℤ) : Bool :=
  if hist.all (fun en => en.contexto ≠ contexto) then false
  else
    let limite_tiempo := ahora - ventana_tiempo_minutos
    let errores_recientes := hist.foldl
      (fun acc en =>
        if en.contexto = contexto ∧ limite_tiempo ≤ en.timestamp then
          acc + en.intentos
        else acc) 0
    errores_recientes > 10

/-! ## Session state (`estado_automatizacion.py`, `gestor_sesion.py`) -/

/-- Embeds `EstadoProceso` enum. -/
inductive EstadoProceso where
  | DETENIDO
  | INICIANDO
  | NAVEGANDO
  | AUTENTICANDO
  | PROCESANDO
  | PAUSADO
  | COMPLETADO
  | ERROR
  | RECUPERANDO
  deriving DecidableEq, Repr

/-- Embeds `EstadoAutomatizacion` dataclass (wall-clock fields `tiempo_inicio`,
`tiempo_ultimo_item` and the derived `velocidad_promedio` are omitted: no
verified property reads them). -/
structure EstadoAutomatizacion where
  contexto : String
  estado : EstadoProceso
  items_totales : Nat
  items_procesados : Nat
  items_exitosos : Nat
  items_fallidos : Nat
  intentos_recuperacion : Nat := 0
  max_intentos : Nat := 3
  mensaje_estado : String := ""
  deriving DecidableEq, Repr

/-- Embeds `EstadoAutomatizacion.porcentaje_progreso`. -/
def porcentaje_progreso (e : EstadoAutomatizacion) : ℚ :=
  if e.items_totales = 0 then 0
  else ((e.items_procesados : ℚ) / (e.items_totales : ℚ)) * 100

/-- Embeds `EstadoAutomatizacion.tasa_exito`. -/
def tasa_exito (e : EstadoAutomatizacion) : ℚ :=
  if e.items_procesados = 0 then 0
  else ((e.items_exitosos : ℚ) / (e.items_procesados : ℚ)) * 100

/-- Embeds `EstadoAutomatizacion.incrementar_procesado`. -/
def incrementar_procesado (e : EstadoAutomatizacion) (exitoso : Bool) :
    EstadoAutomatizacion :=
  let e := { e with items_procesados := e.items_procesados + 1 }
  if exitoso then { e with items_exitosos := e.items_exitosos + 1 }
  else { e with items_fallidos := e.items_fallidos + 1 }

/-- Embeds `EstadoAutomatizacion.incrementar_intento_recuperacion`. -/
def incrementar_intento_recuperacion (e : EstadoAutomatizacion) :
    EstadoAutomatizacion :=
  { e with intentos_recuperacion := e.intentos_recuperacion + 1 }

/-- The mutable state of a `GestorSesion` (id, metadata and the free-form data
dict omitted; `estado` is kept total because every verified run initializes it
through `inicializar_estado` before use). -/
structure Sesion where
  activa : Bool := false
  pausada : Bool := false
  estado : EstadoAutomatizacion
  deriving DecidableEq, Repr

/-- Embeds `GestorSesion.iniciar_sesion`. -/
def iniciar_sesion (s : Sesion) : Sesion :=
  { s with
    activa := true,
    pausada := false,
    estado := { s.estado with
                estado := .INICIANDO,
                mensaje_estado := "Sesión iniciada" } }

/-- Embeds `GestorSesion.detener_sesion`. -/
def detener_sesion (s : Sesion) (razon : String) : Sesion :=
  { s with
    activa := false,
    pausada := false,
    estado := { s.estado with
                estado := .DETENIDO,
                mensaje_estado := razon } }

/-- Embeds `GestorSesion.actualizar_progreso`: bump the counters and, when every item
has been processed, mark the run completed and stop the session. -/
def actualizar_progreso (s : Sesion) (exitoso : Bool) (mensaje : String) : Sesion :=
  let est := incrementar_procesado s.estado exitoso
  let est := if mensaje ≠ "" then { est with mensaje_estado := mensaje } else est
  if est.items_totales ≤ est.items_procesados then
    detener_sesion
      { s with estado := { est with
                           estado := .COMPLETADO,
                           mensaje_estado := "Proceso completado" } }
      "Proceso completado exitosamente"
  else
    { s with estado := est }

/-- Embeds `GestorSesion.iniciar_recuperacion`. -/
def iniciar_recuperacion (s : Sesion) : Sesion :=
  let est := incrementar_intento_recuperacion s.estado
  { s with estado := { est with estado := .RECUPERANDO } }

/-- Embeds `GestorSesion.recuperacion_exitosa`. -/
def recuperacion_exitosa (s : Sesion) : Sesion :=
  { s with estado := { s.estado with
                       estado := .PROCESANDO,
                       mensaje_estado := "Recuperación exitosa, continuando proceso" } }

/-! ## Tasks and the per-context controller (`tarea_automatizacion.py`,
`controlador_automatizacion.py`) -/

/-- Embeds `TareaAutomatizacion` dataclass (timestamps and result/error strings
omitted: the controller loop reads only `id`, `tipo`, `reintentos` and the
task's own `max_reintentos` bound appears in the claimed invariant). -/
structure Tarea where
  id : String
  contexto : String
  tipo : String
  prioridad : Nat := 1
  reintentos : Nat := 0
  max_reintentos : Nat := 3
  deriving DecidableEq, Repr, Inhabited

/-- Embeds `TareaAutomatizacion.puede_reintentar` (the dataclass property). -/
def tarea_puede_reintentar (t : Tarea) : Bool :=
  t.reintentos < t.max_reintentos

/-- The mutable attributes of `ControladorAutomatizacion` read or written by
`ejecutar` and its helpers (collaborator objects are replaced by outcome
scripts below; `pausar`/`reanudar` are never invoked in the verified runs, so
`sesion.pausada` stays false and the cooperative pause poll is a no-op). -/
structure Ctrl where
  contexto : String
  ejecutando : Bool := false
  sesion : Sesion
  historial : Historial := []
  cola_tareas : List Tarea
  deriving DecidableEq, Repr

/-- Outcome of one iteration of the `_procesar_tareas` loop body, as scripted
by the oracle: the attempt succeeds, the attempt raises an exception that the
body's `except` handler catches (an ordinary task failure), or an exception
escapes the body itself (for example the browser/session died inside a
collaborator call), propagating to `_ejecutar_con_recuperacion`. -/
inductive ResultadoTarea where
  | exito
  | fallo (e : Exc)
  | excepcion (e : Exc)
  deriving DecidableEq, Repr

/-- One iteration of the `while` body of
`ControladorAutomatizacion._procesar_tareas`, at queue index `indice`
(invariant of the caller: `indice < st.cola_tareas.length`). Returns the new
controller state and index, or the escaping exception paired with the state
reached so far. On a caught failure the error is classified and
`GestorReintentos.puede_reintentar` is consulted with the task's current retry
count (the manager's default context `"default"` and an abstract timestamp of
0): a granted retry bumps `tarea.reintentos` and keeps the index; a denied one
records the failure in the session counters and advances the index. -/
def cuerpo_tarea (st : Ctrl) (indice : Nat) (r : ResultadoTarea) :
    Except (Exc × Ctrl) (Ctrl × Nat) :=
  let tarea := st.cola_tareas.getD indice default
  match r with
  | .exito =>
    .ok ({ st with sesion := actualizar_progreso st.sesion true
                     ("Tarea " ++ tarea.id ++ " completada") }, indice + 1)
  | .fallo e =>
    let tipo := clasificar e
    let decision := puede_reintentar st.historial tipo tarea.reintentos "default" 0
    if decision.1 then
      .ok ({ st with
             historial := decision.2,
             cola_tareas := st.cola_tareas.set indice
               { tarea with reintentos := tarea.reintentos + 1 } }, indice)
    else
      .ok ({ st with
             historial := decision.2,
             sesion := actualizar_progreso st.sesion false
               ("Tarea " ++ tarea.id ++ " falló") }, indice + 1)
  | .excepcion e => .error (e, st)

/-- Embeds `ControladorAutomatizacion._procesar_tareas`: run the loop from index
`indice`, consuming one scripted outcome per iteration; stops when the index
reaches the queue length or `ejecutando` is cleared. `none` means the script
is too short to determine the run. Returns the final state (or the escaping
exception with the state so far) and the unconsumed script suffix. -/
def procesar_tareas (st : Ctrl) (indice : Nat) :
    List ResultadoTarea → Option (Except (Exc × Ctrl) Ctrl × List ResultadoTarea)
  | [] =>
    if indice < st.cola_tareas.length ∧ st.ejecutando then none
    else some (.ok st, [])
  | r :: resto =>
    if indice < st.cola_tareas.length ∧ st.ejecutando then
      match cuerpo_tarea st indice r with
      | .ok (st', indice') => procesar_tareas st' indice' resto
      | .error e => some (.error e, resto)
    else some (.ok st, r :: resto)

/-- Embeds `ControladorAutomatizacion._ejecutar_con_recuperacion`, with
`restantes = max_intentos_globales - intentos_globales` (so the entry check
`intentos_globales < max_intentos_globales` is `restantes > 0`). `recs`
scripts the outcomes of `_recuperar_sistema`. Exhausting the budget stops the
session with the definitive-failure reason and breaks; a failed recovery
breaks; a successful recovery re-enters the loop on the remaining scripts.
The method swallows every failure and returns the final state normally. -/
def ejecutar_con_recuperacion :
    Nat → Ctrl → List ResultadoTarea → List Bool → Option Ctrl
  | 0, st, _, _ => some st
  | restantes + 1, st, script, recs =>
    if st.cola_tareas.isEmpty then some st
    else
      match procesar_tareas st 0 script with
      | none => none
      | some (.ok st', _) => some st'
      | some (.error (_, st'), scriptResto) =>
        if restantes = 0 then
          some (⟨st'.contexto, st'.ejecutando,
                 detener_sesion st'.sesion "Fallo definitivo después de 3 intentos",
                 st'.historial, st'.cola_tareas⟩)
        else
          let st'' := { st' with sesion := iniciar_recuperacion st'.sesion }
          match recs with
          | [] => none
          | rec :: recsResto =>
            if rec then
              ejecutar_con_recuperacion restantes
                { st'' with sesion := recuperacion_exitosa st''.sesion }
                scriptResto recsResto
            else some st''

/-- Embeds `ControladorAutomatizacion.ejecutar`: the single-flight guard returns
false when a run is already in progress; otherwise the flag is set, the
session started, `_ejecutar_con_recuperacion` runs (it catches its own
failures internally and raises nothing), and `ejecutar` returns true, with
`ejecutando` cleared by the `finally` block. -/
def ejecutar (st : Ctrl) (script : List ResultadoTarea) (recs : List Bool) :
    Option (Bool × Ctrl) :=
  if st.ejecutando then some (false, st)
  else
    let st1 := { st with ejecutando := true, sesion := iniciar_sesion st.sesion }
    match ejecutar_con_recuperacion 3 st1 script recs with
    | none => none
    | some st2 => some (true, { st2 with ejecutando := false })

/-! ## Recovery service (`servicio_recuperacion.py`) -/

/-- Outcomes of the collaborator calls a recovery handler can make
(`GestorNavegador`, `ServicioNavegacion`, `OrquestadorLogin` and the
page-load wait); each field is the boolean the call returns, with a raised
exception folded into `false` because every handler catches it and fails. -/
structure EntornoRecuperacion where
  iniciar_navegador : Bool
  ir_a_login : Bool
  ejecutar_login_completo : Bool
  recargar_pagina : Bool
  esperar_carga : Bool
  ir_a_home : Bool
  verificar_salud : Bool
  deriving DecidableEq, Repr

/-- Embeds `ServicioRecuperacion._reiniciar_navegador_completo`. -/
def reiniciar_navegador_completo (env : EntornoRecuperacion) : Bool :=
  env.iniciar_navegador && env.ir_a_login && env.ejecutar_login_completo

/-- Embeds `ServicioRecuperacion._reiniciar_sesion`. -/
def reiniciar_sesion (env : EntornoRecuperacion) : Bool :=
  env.ir_a_login && env.ejecutar_login_completo

/-- Embeds `ServicioRecuperacion._recargar_pagina`. -/
def recargar_pagina (env : EntornoRecuperacion) : Bool :=
  env.recargar_pagina

/-- Embeds `ServicioRecuperacion._esperar_y_reintentar` (fixed wait, always ok). -/
def esperar_y_reintentar (_env : EntornoRecuperacion) : Bool :=
  true

/-- Embeds `ServicioRecuperacion._recargar_y_buscar`. -/
def recargar_y_buscar (env : EntornoRecuperacion) : Bool :=
  env.recargar_pagina && env.esperar_carga

/-- Embeds `ServicioRecuperacion._reintentar_captcha` (short wait, signals ready). -/
def reintentar_captcha (_env : EntornoRecuperacion) : Bool :=
  true

/-- Embeds `ServicioRecuperacion._verificar_credenciales`: unconditionally reports
failure — credential errors require manual intervention. -/
def verificar_credenciales (_env : EntornoRecuperacion) : Bool :=
  false

/-- Embeds `ServicioRecuperacion._verificar_conexion_api` (wait, then ok). -/
def verificar_conexion_api (_env : EntornoRecuperacion) : Bool :=
  true

/-- Embeds `ServicioRecuperacion._navegar_desde_inicio`. -/
def navegar_desde_inicio (env : EntornoRecuperacion) : Bool :=
  env.ir_a_home

/-- Embeds `ServicioRecuperacion._reintentar_generico`: health-check, reload when
unhealthy, otherwise succeed without action. -/
def reintentar_generico (env : EntornoRecuperacion) : Bool :=
  if env.verificar_salud then true else env.recargar_pagina

/-- Embeds `ServicioRecuperacion._ejecutar_estrategia`: string-keyed dispatch with
`_reintentar_generico` as the default handler. -/
def ejecutar_estrategia (estrategia : String) (env : EntornoRecuperacion) : Bool :=
  if estrategia = "reiniciar_navegador_completo" then reiniciar_navegador_completo env
  else if estrategia = "reiniciar_sesion" then reiniciar_sesion env
  else if estrategia = "recargar_pagina" then recargar_pagina env
  else if estrategia = "esperar_y_reintentar" then esperar_y_reintentar env
  else if estrategia = "recargar_y_buscar" then recargar_y_buscar env
  else if estrategia = "reintentar_captcha" then reintentar_captcha env
  else if estrategia = "verificar_credenciales" then verificar_credenciales env
  else if estrategia = "verificar_conexion_api" then verificar_conexion_api env
  else if estrategia = "navegar_desde_inicio" then navegar_desde_inicio env
  else reintentar_generico env

/-- Embeds `ServicioRecuperacion.recuperar`: classify, resolve the strategy, wait the
computed backoff (no observable effect here) and dispatch. -/
def recuperar (env : EntornoRecuperacion) (error : Exc) (intento : Nat) : Bool :=
  let tipo := clasificar error
  let estrategia := obtener_estrategia_recuperacion tipo
  let _tiempo_de_espera := calcular_tiempo_espera tipo intento
  ejecutar_estrategia estrategia env

/-! ## Dual facade (`controlador_automatizacion_principal.py`) -/

/-- Embeds `ResultadoAutomatizacion` (only the fields the dual aggregation reads). -/
structure Resultado where
  exitoso : Bool
  mensaje : String
  deriving DecidableEq, Repr

/-- The outcome of one branch of `asyncio.gather(..., return_exceptions=True)`:
either the branch's returned `ResultadoAutomatizacion` or the exception it
raised. -/
abbrev RamaDual := Except Exc Resultado

/-- The per-branch wrapping in `ejecutar_automatizacion_dual`: a branch that
raised is replaced by a failed result naming that branch; a returned result is
kept unchanged. -/
def envolver_rama (nombre : String) (r : RamaDual) : Resultado :=
  match r with
  | .ok res => res
  | .error e => ⟨false, "Excepción en " ++ nombre ++ ": " ++ e.mensaje⟩

/-- Whether Python's standard `logging.Logger` has a logging method of this
name, so that the `getattr(self.logger, nivel)(...)` call in `_log` succeeds.
The stdlib logger exposes `debug`, `info`, `warning`, `error`, `critical`,
`exception` and `log` — and nothing named `success` (the repository defines no
custom logger class or level), so `_log(..., "success", ...)` raises
`AttributeError` before reaching the callback. -/
def logger_tiene_nivel (nivel : String) : Bool :=
  nivel = "debug" || nivel = "info" || nivel = "warning" || nivel = "error" ||
  nivel = "critical" || nivel = "exception" || nivel = "log"

/-- The shared failure message produced by the outer `except` of
`ejecutar_automatizacion_dual` when the final success log raises:
`f"Error dual: {e}"` with the `AttributeError` text. -/
def mensaje_error_dual : String :=
  "Error dual: \x27Logger\x27 object has no attribute \x27success\x27"

/-- Embeds `ControladorAutomatizacionPrincipal.ejecutar_automatizacion_dual`, as a
function of the two concurrently-computed branch outcomes: the returned map
`{"pacientes": ..., "casos": ...}` becomes an ordered pair. After the
per-branch wrapping, the method logs the combined outcome: level `"success"`
when both branches succeeded (a call that raises `AttributeError`, landing in
the method's outer `except`, which replaces BOTH entries by the same failed
result), level `"warning"` or `"error"` otherwise (calls that succeed, so the
wrapped pair is returned). -/
def ejecutar_automatizacion_dual (pacientes casos : RamaDual) :
    Resultado × Resultado :=
  let resultado_pacientes := envolver_rama "pacientes" pacientes
  let resultado_casos := envolver_rama "casos" casos
  let nivel :=
    if resultado_pacientes.exitoso && resultado_casos.exitoso then "success"
    else if resultado_pacientes.exitoso || resultado_casos.exitoso then "warning"
    else "error"
  if logger_tiene_nivel nivel then (resultado_pacientes, resultado_casos)
  else (⟨false, mensaje_error_dual⟩, ⟨false, mensaje_error_dual⟩)

/-! ## Specification-side definitions and concrete fixtures -/

/-- Modelled from the spec's wording for the circuit breaker: the number of
attempts recorded for a context within the trailing window, "summing recorded
attempts" — the sum of the `intentos` fields of the context's records whose
timestamp is inside the window. -/
def intentos_en_ventana (hist : Historial) (contexto : String)
    (ventana ahora : ℤ) : Nat :=
  ((hist.filter fun en =>
      decide (en.contexto = contexto ∧ ahora - ventana ≤ en.timestamp)).map
    Entrada.intentos).sum

/-- Ten recorded attempts (one each) for context "casos" inside the window. -/
def historialDiez : Historial :=
  (List.range 10).map fun i => ⟨"casos", (i : ℤ), .ERROR_API, 1⟩

/-- Eleven recorded attempts (one each) for context "casos" inside the window. -/
def historialOnce : Historial :=
  (List.range 11).map fun i => ⟨"casos", (i : ℤ), .ERROR_API, 1⟩

/-- Modelled from the spec's wording for the backoff: 0 for
`intento ≤ immediateRetryCount`, otherwise the integer truncation of
`min(baseDelay * multiplier ^ (intento - immediateRetryCount - 1), 60)`. -/
def backoff_especificado (tipo : TipoError) (intento : Nat) : Nat :=
  if intento ≤ reintentos_inmediatos tipo then 0
  else
    Nat.floor
      (min (tiempo_espera tipo *
            incremento_espera tipo ^ (intento - reintentos_inmediatos tipo - 1))
           (60 : ℚ))

/-- Final controller state of a `_procesar_tareas` run, whether the loop
returned normally or an exception escaped it. -/
def estado_final : Except (Exc × Ctrl) Ctrl → Ctrl
  | .ok st => st
  | .error (_, st) => st

/-- A session over one pending item, mid-`Processing` (concrete fixture). -/
def sesionUna : Sesion :=
  { activa := true,
    estado := { contexto := "pacientes", estado := .PROCESANDO,
                items_totales := 1, items_procesados := 0,
                items_exitosos := 0, items_fallidos := 0 } }

/-- A controller mid-run over a single default task (concrete fixture used by
the concrete evaluations below). -/
def ctrlUna : Ctrl :=
  { contexto := "pacientes",
    ejecutando := true,
    sesion := sesionUna,
    cola_tareas := [{ id := "t1", contexto := "pacientes",
                      tipo := "procesar_paciente" }] }

/-- A freshly initialized controller (before `ejecutar`), one pending task. -/
def ctrlInicial : Ctrl :=
  { contexto := "pacientes",
    ejecutando := false,
    sesion := { estado := { contexto := "pacientes", estado := .DETENIDO,
                            items_totales := 1, items_procesados := 0,
                            items_exitosos := 0, items_fallidos := 0 } },
    cola_tareas := [{ id := "t1", contexto := "pacientes",
                      tipo := "procesar_paciente" }] }

/-- An exception whose type name makes the classifier fall through to the
type table and yield `TIMEOUT_RED` (budget 5). -/
def excRed : Exc := ⟨"fallo de red", "ConnectionError"⟩

/-- An exception classified as `NAVEGADOR_CERRADO` via the "chrome not
reachable" pattern. -/
def excCritica : Exc := ⟨"chrome not reachable", "WebDriverException"⟩

/-- State of `ctrlUna` after one failed attempt with a granted retry: the attempt is
recorded and the task's retry count is 1, with nothing else changed. -/
def ctrlUnaReintentada : Ctrl :=
  { ctrlUna with
    historial := [⟨"default", 0, .TIMEOUT_RED, 0⟩],
    cola_tareas := [{ id := "t1", contexto := "pacientes",
                      tipo := "procesar_paciente", reintentos := 1 }] }

/-- State of `ctrlUna` after six consecutive `TIMEOUT_RED` failures of its only task:
five granted retries (recorded attempts 0 through 4) drive the task's retry
count to 5, then the sixth failure is denied, the item is counted as failed
and the queue completes. -/
def ctrlSeis : Ctrl :=
  { contexto := "pacientes",
    ejecutando := true,
    sesion := { activa := false,
                pausada := false,
                estado := { contexto := "pacientes", estado := .DETENIDO,
                            items_totales := 1, items_procesados := 1,
                            items_exitosos := 0, items_fallidos := 1,
                            intentos_recuperacion := 0, max_intentos := 3,
                            mensaje_estado := "Proceso completado exitosamente" } },
    historial := [⟨"default", 0, .TIMEOUT_RED, 0⟩, ⟨"default", 0, .TIMEOUT_RED, 1⟩,
                  ⟨"default", 0, .TIMEOUT_RED, 2⟩, ⟨"default", 0, .TIMEOUT_RED, 3⟩,
                  ⟨"default", 0, .TIMEOUT_RED, 4⟩],
    cola_tareas := [{ id := "t1", contexto := "pacientes",
                      tipo := "procesar_paciente", reintentos := 5 }] }

/-! ## Theorems -/

/-- C10: the status-snapshot computations are total at zero denominators:
`porcentaje_progreso` returns 0 when `items_totales = 0` and `tasa_exito`
returns 0 when `items_procesados = 0`, so reading the status never divides by
zero. -/
theorem snapshot_total_en_denominador_cero (e : EstadoAutomatizacion) :
    (e.items_totales = 0 → porcentaje_progreso e = 0) ∧
    (e.items_procesados = 0 → tasa_exito e = 0) := by
  constructor
  · intro h
    simp [porcentaje_progreso, h]
  · intro h
    simp [tasa_exito, h]

/-- Witness for `snapshot_total_en_denominador_cero` at a concrete empty
snapshot. -/
theorem snapshot_total_en_denominador_cero_testigo :
    porcentaje_progreso ⟨"casos", .DETENIDO, 0, 0, 0, 0, 0, 3, ""⟩ = 0 ∧
    tasa_exito ⟨"casos", .DETENIDO, 0, 0, 0, 0, 0, 3, ""⟩ = 0 :=
  ⟨(snapshot_total_en_denominador_cero _).1 rfl,
   (snapshot_total_en_denominador_cero _).2 rfl⟩

/-- C7: the `verificar_credenciales` recovery handler reports failure for
every collaborator environment, and a recovery dispatched for an error
classified as `CREDENCIALES_INVALIDAS` always returns false, whatever the
environment and attempt number. -/
theorem verificar_credenciales_siempre_falla :
    (∀ env : EntornoRecuperacion,
        ejecutar_estrategia "verificar_credenciales" env = false) ∧
    (∀ (env : EntornoRecuperacion) (e : Exc) (intento : Nat),
        clasificar e = .CREDENCIALES_INVALIDAS → recuperar env e intento = false) := by
  constructor
  · intro env
    rfl
  · intro env e intento h
    unfold recuperar
    rw [h]
    rfl

/-- Witness for `verificar_credenciales_siempre_falla`: an
"invalid credentials" error is never auto-recovered. -/
theorem verificar_credenciales_siempre_falla_testigo :
    recuperar ⟨true, true, true, true, true, true, true⟩
      ⟨"invalid credentials", "Exception"⟩ 1 = false :=
  verificar_credenciales_siempre_falla.2 _ _ 1 (by decide)

/-- C8 counterexample: when both branches return successful results, the dual
run does NOT return them: the success log raises (no `Logger.success`), the
outer `except` fires, and both entries are replaced by the same shared
failure — the "pacientes" entry no longer equals the wrapping of its own
branch outcome. -/
theorem dual_ramas_contraejemplo :
    ejecutar_automatizacion_dual (.ok ⟨true, "pacientes completado"⟩)
        (.ok ⟨true, "casos completado"⟩) =
      (⟨false, mensaje_error_dual⟩, ⟨false, mensaje_error_dual⟩) ∧
    (ejecutar_automatizacion_dual (.ok ⟨true, "pacientes completado"⟩)
        (.ok ⟨true, "casos completado"⟩)).1 ≠
      envolver_rama "pacientes" (.ok ⟨true, "pacientes completado"⟩) := by
  refine ⟨rfl, by decide⟩

/-- C8 (amended): for every pair of branch outcomes in which at least one
wrapped branch failed, the dual run returns the per-branch wrapping: an
exception raised by one branch becomes that branch's own failed result and the
other branch's result is returned unchanged — in particular a total failure of
"pacientes" never disturbs "casos". Only when both branches succeed does the
success-level log raise `AttributeError`, making the outer `except` replace
both entries by the same failure. -/
theorem dual_ramas_independientes_amendado :
    (∀ (pacientes casos : RamaDual),
      (envolver_rama "pacientes" pacientes).exitoso = false ∨
      (envolver_rama "casos" casos).exitoso = false →
      ejecutar_automatizacion_dual pacientes casos =
        (envolver_rama "pacientes" pacientes, envolver_rama "casos" casos)) ∧
    (∀ (e : Exc) (casos : RamaDual),
      (ejecutar_automatizacion_dual (.error e) casos).1 =
        ⟨false, "Excepción en pacientes: " ++ e.mensaje⟩) ∧
    (∀ (e : Exc) (res : Resultado),
      (ejecutar_automatizacion_dual (.error e) (.ok res)).2 = res) ∧
    (∀ (rp rc : Resultado), rp.exitoso = true → rc.exitoso = true →
      ejecutar_automatizacion_dual (.ok rp) (.ok rc) =
        (⟨false, mensaje_error_dual⟩, ⟨false, mensaje_error_dual⟩)) := by
  have hA : ∀ (pacientes casos : RamaDual),
      (envolver_rama "pacientes" pacientes).exitoso = false ∨
      (envolver_rama "casos" casos).exitoso = false →
      ejecutar_automatizacion_dual pacientes casos =
        (envolver_rama "pacientes" pacientes, envolver_rama "casos" casos) := by
    intro pacientes casos h
    rcases h with h | h
    · cases hc : (envolver_rama "casos" casos).exitoso <;>
        simp [ejecutar_automatizacion_dual, h, hc, logger_tiene_nivel]
    · cases hp : (envolver_rama "pacientes" pacientes).exitoso <;>
        simp [ejecutar_automatizacion_dual, h, hp, logger_tiene_nivel]
  refine ⟨hA, ?_, ?_, ?_⟩
  · intro e casos
    rw [hA (.error e) casos (Or.inl rfl)]
    rfl
  · intro e res
    rw [hA (.error e) (.ok res) (Or.inl rfl)]
    rfl
  · intro rp rc h1 h2
    simp [ejecutar_automatizacion_dual, envolver_rama, h1, h2, logger_tiene_nivel]

/-- Witness for `dual_ramas_independientes_amendado`: a concrete pair where
"pacientes" raised and "casos" succeeded keeps the "casos" result intact, and
a concrete both-success pair collapses into the shared dual failure. -/
theorem dual_ramas_independientes_amendado_testigo :
    ejecutar_automatizacion_dual (.error ⟨"navegador cerrado", "Exception"⟩)
        (.ok ⟨true, "casos completado"⟩) =
      (⟨false, "Excepción en pacientes: navegador cerrado"⟩,
       ⟨true, "casos completado"⟩) ∧
    ejecutar_automatizacion_dual (.ok ⟨true, "pacientes listo"⟩)
        (.ok ⟨true, "casos listo"⟩) =
      (⟨false, mensaje_error_dual⟩, ⟨false, mensaje_error_dual⟩) :=
  ⟨dual_ramas_independientes_amendado.1 _ _ (Or.inl rfl),
   dual_ramas_independientes_amendado.2.2.2 ⟨true, "pacientes listo"⟩
     ⟨true, "casos listo"⟩ rfl rfl⟩

/-- C3: `puede_reintentar` grants a retry exactly when the attempt number is
below the kind's `max_reintentos`; a granted retry appends exactly one record
for that context to the history, a denied one leaves it unchanged; and the
decision is monotonic in the attempt number: a grant at a later attempt
implies a grant at any earlier attempt of the same kind. -/
theorem puede_reintentar_caracterizacion :
    (∀ (hist : Historial) (tipo : TipoError) (intento : Nat) (ctx : String) (ahora : ℤ),
      (puede_reintentar hist tipo intento ctx ahora).1 = true ↔
        intento < max_reintentos tipo) ∧
    (∀ (hist : Historial) (tipo : TipoError) (intento : Nat) (ctx : String) (ahora : ℤ),
      intento < max_reintentos tipo →
      (puede_reintentar hist tipo intento ctx ahora).2 =
        hist ++ [⟨ctx, ahora, tipo, intento⟩]) ∧
    (∀ (hist : Historial) (tipo : TipoError) (intento : Nat) (ctx : String) (ahora : ℤ),
      ¬ intento < max_reintentos tipo →
      (puede_reintentar hist tipo intento ctx ahora).2 = hist) ∧
    (∀ (tipo : TipoError) (a b : Nat) (hist hist' : Historial)
       (ctx ctx' : String) (ahora ahora' : ℤ), a < b →
      (puede_reintentar hist tipo b ctx ahora).1 = true →
      (puede_reintentar hist' tipo a ctx' ahora').1 = true) := by
  refine ⟨?_, ?_, ?_, ?_⟩
  · intro hist tipo intento ctx ahora
    unfold puede_reintentar
    split <;> simp_all
  · intro hist tipo intento ctx ahora h
    unfold puede_reintentar registrar_intento
    simp [h]
  · intro hist tipo intento ctx ahora h
    unfold puede_reintentar
    simp [h]
  · intro tipo a b hist hist' ctx ctx' ahora ahora' hab hb
    unfold puede_reintentar at hb ⊢
    have hblt : b < max_reintentos tipo := by
      by_contra hc
      rw [if_neg hc] at hb
      exact Bool.false_ne_true hb
    rw [if_pos (lt_trans hab hblt)]

/-- Witness for `puede_reintentar_caracterizacion` at concrete inputs:
attempt 4 of a `TIMEOUT_RED` error (budget 5) is granted and recorded,
attempt 5 is denied and records nothing, and the grant at attempt 4 forces
the grant at attempt 2. -/
theorem puede_reintentar_caracterizacion_testigo :
    (puede_reintentar [] .TIMEOUT_RED 4 "casos" 7).1 = true ∧
    (puede_reintentar [] .TIMEOUT_RED 4 "casos" 7).2 =
      [⟨"casos", 7, .TIMEOUT_RED, 4⟩] ∧
    (puede_reintentar [] .TIMEOUT_RED 5 "casos" 7).2 = [] ∧
    (puede_reintentar [] .TIMEOUT_RED 2 "pacientes" 9).1 = true := by
  refine ⟨?_, ?_, ?_, ?_⟩
  · exact (puede_reintentar_caracterizacion.1 [] .TIMEOUT_RED 4 "casos" 7).mpr (by decide)
  · exact puede_reintentar_caracterizacion.2.1 [] .TIMEOUT_RED 4 "casos" 7 (by decide)
  · exact puede_reintentar_caracterizacion.2.2.1 [] .TIMEOUT_RED 5 "casos" 7 (by decide)
  · exact puede_reintentar_caracterizacion.2.2.2 .TIMEOUT_RED 2 4 [] [] "casos"
      "pacientes" 7 9 (by decide)
      ((puede_reintentar_caracterizacion.1 [] .TIMEOUT_RED 4 "casos" 7).mpr (by decide))

/-- Every backoff multiplier in the retry table is at least 1. -/
theorem incremento_espera_ge_uno (tipo : TipoError) : (1 : ℚ) ≤ incremento_espera tipo := by
  cases tipo <;> norm_num [incremento_espera]

/-- Every base delay in the retry table is non-negative. -/
theorem tiempo_espera_nonneg (tipo : TipoError) : (0 : ℚ) ≤ tiempo_espera tipo := by
  cases tipo <;> norm_num [tiempo_espera]

/-- Overflow of the multiplier power is monotone in the attempt number. -/
theorem desbordamiento_monotono (tipo : TipoError) (a b : Nat) (hab : a ≤ b)
    (h : desbordamiento tipo a) : desbordamiento tipo b := by
  unfold desbordamiento at h ⊢
  refine ⟨h.1, le_trans h.2 ?_⟩
  exact pow_le_pow_right₀ (incremento_espera_ge_uno tipo) (by omega)

/-- C5 counterexample: backoff claimed for every attempt number fails at the
float-overflow threshold of `SESION_PERDIDA` (multiplier 1.5): at attempt 1751
the power is still finite and the 60-second cap applies, but at attempt 1752
Python's `1.5 ** 1751` raises `OverflowError` and the handler returns the
fallback 5 — so the value both departs from the claimed formula (which says
60) and decreases from 60 to 5, breaking non-decrease. -/
theorem calcular_tiempo_espera_contraejemplo :
    calcular_tiempo_espera .SESION_PERDIDA 1751 = 60 ∧
    calcular_tiempo_espera .SESION_PERDIDA 1752 = 5 ∧
    backoff_especificado .SESION_PERDIDA 1752 = 60 ∧
    calcular_tiempo_espera .SESION_PERDIDA 1752 ≠
      backoff_especificado .SESION_PERDIDA 1752 ∧
    reintentos_inmediatos .SESION_PERDIDA < 1751 ∧
    ¬ (calcular_tiempo_espera .SESION_PERDIDA 1751 ≤
        calcular_tiempo_espera .SESION_PERDIDA 1752) := by
  have hno : ¬ desbordamiento .SESION_PERDIDA 1751 := by
    unfold desbordamiento
    simp only [incremento_flotante, incremento_espera, reintentos_inmediatos]
    norm_num
  have hsi : desbordamiento .SESION_PERDIDA 1752 := by
    unfold desbordamiento
    simp only [incremento_flotante, incremento_espera, reintentos_inmediatos]
    norm_num
  have h1751 : calcular_tiempo_espera .SESION_PERDIDA 1751 = 60 := by
    unfold calcular_tiempo_espera
    rw [if_neg (show ¬ (1751 ≤ reintentos_inmediatos .SESION_PERDIDA) by
          simp [reintentos_inmediatos]), if_neg hno]
    dsimp only
    simp only [tiempo_espera, incremento_espera, reintentos_inmediatos]
    rw [min_eq_right (by norm_num), Int.floor_toNat]
    norm_num
  have h1752 : calcular_tiempo_espera .SESION_PERDIDA 1752 = 5 := by
    unfold calcular_tiempo_espera
    rw [if_neg (show ¬ (1752 ≤ reintentos_inmediatos .SESION_PERDIDA) by
          simp [reintentos_inmediatos]), if_pos hsi]
  have hb1752 : backoff_especificado .SESION_PERDIDA 1752 = 60 := by
    unfold backoff_especificado
    rw [if_neg (show ¬ (1752 ≤ reintentos_inmediatos .SESION_PERDIDA) by
          simp [reintentos_inmediatos])]
    simp only [tiempo_espera, incremento_espera, reintentos_inmediatos]
    rw [min_eq_right (by norm_num)]
    norm_num
  refine ⟨h1751, h1752, hb1752, ?_, by simp [reintentos_inmediatos], ?_⟩
  · rw [h1752, hb1752]
    decide
  · rw [h1751, h1752]
    decide

/-- C5 (amended): backoff equals the specified truncated, 60-capped
exponential at every attempt number at which the multiplier power does not
overflow the float range (always, for the integer multipliers; below the
`2^1024` threshold for the float multipliers 1.5 and 1.2); past the threshold
the `OverflowError` handler returns the fallback 5. The result never exceeds
60 at any attempt, and it is non-decreasing on the non-overflowing range. -/
theorem calcular_tiempo_espera_amendado :
    (∀ (tipo : TipoError) (intento : Nat), ¬ desbordamiento tipo intento →
      calcular_tiempo_espera tipo intento = backoff_especificado tipo intento) ∧
    (∀ (tipo : TipoError) (intento : Nat), reintentos_inmediatos tipo < intento →
      desbordamiento tipo intento → calcular_tiempo_espera tipo intento = 5) ∧
    (∀ (tipo : TipoError) (intento : Nat),
      calcular_tiempo_espera tipo intento ≤ 60) ∧
    (∀ (tipo : TipoError) (a b : Nat), reintentos_inmediatos tipo < a → a ≤ b →
      ¬ desbordamiento tipo b →
      calcular_tiempo_espera tipo a ≤ calcular_tiempo_espera tipo b) := by
  refine ⟨?_, ?_, ?_, ?_⟩
  · intro tipo intento hno
    unfold calcular_tiempo_espera backoff_especificado
    by_cases himm : intento ≤ reintentos_inmediatos tipo
    · rw [if_pos himm, if_pos himm]
    · rw [if_neg himm, if_neg himm, if_neg hno, Int.floor_toNat]
  · intro tipo intento himm hsi
    unfold calcular_tiempo_espera
    rw [if_neg (show ¬ intento ≤ reintentos_inmediatos tipo by omega), if_pos hsi]
  · intro tipo intento
    unfold calcular_tiempo_espera
    split
    · exact Nat.zero_le 60
    · split
      · omega
      · rw [Int.floor_toNat]
        calc Nat.floor (min (tiempo_espera tipo *
                incremento_espera tipo ^ (intento - reintentos_inmediatos tipo - 1)) (60 : ℚ))
            ≤ Nat.floor (60 : ℚ) := Nat.floor_le_floor (min_le_right _ _)
          _ = 60 := by norm_num
  · intro tipo a b ha hab hnob
    have hnoa : ¬ desbordamiento tipo a :=
      fun hda => hnob (desbordamiento_monotono tipo a b hab hda)
    unfold calcular_tiempo_espera
    rw [if_neg (show ¬ a ≤ reintentos_inmediatos tipo by omega),
      if_neg (show ¬ b ≤ reintentos_inmediatos tipo by omega),
      if_neg hnoa, if_neg hnob, Int.floor_toNat, Int.floor_toNat]
    refine Nat.floor_le_floor (min_le_min ?_ le_rfl)
    refine mul_le_mul_of_nonneg_left ?_ (tiempo_espera_nonneg tipo)
    exact pow_le_pow_right₀ (incremento_espera_ge_uno tipo) (by omega)

/-- Witness for `calcular_tiempo_espera_amendado`: concrete instances of all
four parts — the formula at a non-overflowing attempt, the fallback 5 past the
`SESION_PERDIDA` threshold, the cap, and monotonicity between attempts 2 and 5
of `TIMEOUT_RED`. -/
theorem calcular_tiempo_espera_amendado_testigo :
    calcular_tiempo_espera .TIMEOUT_RED 2 = backoff_especificado .TIMEOUT_RED 2 ∧
    calcular_tiempo_espera .SESION_PERDIDA 1752 = 5 ∧
    calcular_tiempo_espera .SESION_PERDIDA 1752 ≤ 60 ∧
    calcular_tiempo_espera .TIMEOUT_RED 2 ≤ calcular_tiempo_espera .TIMEOUT_RED 5 := by
  have hno2 : ¬ desbordamiento .TIMEOUT_RED 2 := by
    unfold desbordamiento
    simp only [incremento_flotante, incremento_espera, reintentos_inmediatos]
    norm_num
  have hno5 : ¬ desbordamiento .TIMEOUT_RED 5 := by
    unfold desbordamiento
    simp only [incremento_flotante, incremento_espera, reintentos_inmediatos]
    norm_num
  have hsi : desbordamiento .SESION_PERDIDA 1752 := by
    unfold desbordamiento
    simp only [incremento_flotante, incremento_espera, reintentos_inmediatos]
    norm_num
  exact ⟨calcular_tiempo_espera_amendado.1 .TIMEOUT_RED 2 hno2,
    calcular_tiempo_espera_amendado.2.1 .SESION_PERDIDA 1752
      (by simp [reintentos_inmediatos]) hsi,
    calcular_tiempo_espera_amendado.2.2.1 .SESION_PERDIDA 1752,
    calcular_tiempo_espera_amendado.2.2.2 .TIMEOUT_RED 2 5
      (by simp [reintentos_inmediatos]) (by omega) hno5⟩

/-- The conditional-accumulation loop of `debe_abortar` computes the sum of
`intentos` over the entries satisfying the condition. -/
theorem foldl_condicional_suma (P : Entrada → Prop) [DecidablePred P]
    (l : List Entrada) (acc : Nat) :
    l.foldl (fun a en => if P en then a + en.intentos else a) acc
      = acc + ((l.filter fun en => decide (P en)).map Entrada.intentos).sum := by
  induction l generalizing acc with
  | nil => simp
  | cons en resto ih =>
    by_cases h : P en
    · simp [List.foldl_cons, h, ih, Nat.add_assoc]
    · simp [List.foldl_cons, h, ih]

/-- C2: `debe_abortar(ctx, 10)` holds exactly when more than 10 attempts were
recorded for that context within the trailing 10-minute window (summing the
recorded attempt counts); in particular it is false at exactly 10 recorded
attempts and true at 11. -/
theorem debe_abortar_caracterizacion :
    (∀ (hist : Historial) (ctx : String) (ahora : ℤ),
      debe_abortar hist ctx 10 ahora = true ↔
        10 < intentos_en_ventana hist ctx 10 ahora) ∧
    debe_abortar historialDiez "casos" 10 10 = false ∧
    debe_abortar historialOnce "casos" 10 10 = true := by
  refine ⟨?_, by decide, by decide⟩
  intro hist ctx ahora
  unfold debe_abortar intentos_en_ventana
  split
  · next h =>
    have hvacio :
        hist.filter (fun en => decide (en.contexto = ctx ∧ ahora - 10 ≤ en.timestamp)) = [] := by
      rw [List.filter_eq_nil_iff]
      intro a ha
      have hne := List.all_eq_true.mp h a ha
      simp at hne ⊢
      intro hc
      exact absurd hc hne
    rw [hvacio]
    simp
  · dsimp only
    rw [foldl_condicional_suma (fun en => en.contexto = ctx ∧ ahora - 10 ≤ en.timestamp)]
    simp

/-- The test `esPrefijo` decides "is a leading segment". -/
theorem esPrefijo_iff (pat l : List Char) :
    esPrefijo pat l = true ↔ ∃ suf, l = pat ++ suf := by
  induction pat generalizing l with
  | nil => simp [esPrefijo]
  | cons a pat ih =>
    cases l with
    | nil => simp [esPrefijo]
    | cons b resto =>
      simp only [esPrefijo, Bool.and_eq_true, beq_iff_eq, ih]
      constructor
      · rintro ⟨rfl, suf, rfl⟩
        exact ⟨suf, rfl⟩
      · rintro ⟨suf, h⟩
        obtain ⟨rfl, rfl⟩ := List.cons_eq_cons.mp h
        exact ⟨rfl, suf, rfl⟩

/-- The test `contieneAux` decides "occurs as a contiguous segment". -/
theorem contieneAux_iff (pat l : List Char) :
    contieneAux pat l = true ↔ ∃ pre suf, l = pre ++ pat ++ suf := by
  induction l with
  | nil =>
    simp only [contieneAux, List.isEmpty_iff]
    constructor
    · rintro rfl
      exact ⟨[], [], rfl⟩
    · rintro ⟨pre, suf, h⟩
      have h1 := List.append_eq_nil.mp h.symm
      exact (List.append_eq_nil.mp h1.1).2
  | cons c resto ih =>
    simp only [contieneAux, Bool.or_eq_true, esPrefijo_iff, ih]
    constructor
    · rintro (⟨suf, h⟩ | ⟨pre, suf, h⟩)
      · exact ⟨[], suf, by simpa using h⟩
      · exact ⟨c :: pre, suf, by simp [h]⟩
    · rintro ⟨pre, suf, h⟩
      cases pre with
      | nil => exact Or.inl ⟨suf, by simpa using h⟩
      | cons d pre' =>
        obtain ⟨rfl, h2⟩ := List.cons_eq_cons.mp (by simpa using h)
        exact Or.inr ⟨pre', suf, by rw [h2, List.append_assoc]⟩

/-- The test `contiene` decides the substring relation on the underlying characters. -/
theorem contiene_iff (s pat : String) :
    contiene s pat = true ↔ ∃ pre suf, s.toList = pre ++ pat.toList ++ suf :=
  contieneAux_iff pat.toList s.toList

/-- A string containing a pattern also contains every contiguous segment of
that pattern. -/
theorem contiene_de_super (s p q : String) (pre suf : List Char)
    (hq : q.toList = pre ++ p.toList ++ suf) (h : contiene s q = true) :
    contiene s p = true := by
  rcases (contiene_iff s q).mp h with ⟨x, y, hxy⟩
  refine (contiene_iff s p).mpr ⟨x ++ pre, suf ++ y, ?_⟩
  rw [hxy, hq]
  simp [List.append_assoc]

/-- A prefix of the pattern table on which every match fails is transparent to
the scan. -/
theorem buscarPatron_append_fallan (e : Exc) (l1 l2 : List (String × TipoError))
    (h : ∀ pt ∈ l1, coincide e pt.1 = false) :
    buscarPatron e (l1 ++ l2) = buscarPatron e l2 := by
  induction l1 with
  | nil => rfl
  | cons pt resto ih =>
    obtain ⟨patron, tipo⟩ := pt
    have hpt := h (patron, tipo) (List.mem_cons_self _ _)
    simp only [List.cons_append, buscarPatron, hpt]
    exact ih fun q hq => h q (List.mem_cons_of_mem _ hq)

/-- The scan only ever returns a `TipoError` present in the table it scans. -/
theorem buscarPatron_mem (e : Exc) (l : List (String × TipoError)) (t : TipoError)
    (h : buscarPatron e l = some t) : t ∈ l.map Prod.snd := by
  induction l with
  | nil => exact absurd h (by simp [buscarPatron])
  | cons pt resto ih =>
    obtain ⟨patron, tipo⟩ := pt
    rw [buscarPatron] at h
    by_cases hc : coincide e patron
    · rw [if_pos hc] at h
      simp [Option.some_inj.mp h]
    · rw [if_neg hc] at h
      simp [ih h]

/-- The scan succeeds as soon as some entry of the table matches. -/
theorem buscarPatron_isSome (e : Exc) (l : List (String × TipoError))
    (h : ∃ pt ∈ l, coincide e pt.1 = true) : (buscarPatron e l).isSome := by
  induction l with
  | nil => simp at h
  | cons pt resto ih =>
    obtain ⟨patron, tipo⟩ := pt
    rw [buscarPatron]
    by_cases hc : coincide e patron
    · rw [if_pos hc]
      rfl
    · rw [if_neg hc]
      rcases h with ⟨q, hq, hcq⟩
      rcases List.mem_cons.mp hq with rfl | hq'
      · exact absurd hcq (by simpa using hc)
      · exact ih ⟨q, hq', hcq⟩

/-- When the scan already succeeds on a prefix of the table, the remaining
entries are unreachable. -/
theorem buscarPatron_append_isSome (e : Exc) (l1 l2 : List (String × TipoError))
    (h : (buscarPatron e l1).isSome) :
    buscarPatron e (l1 ++ l2) = buscarPatron e l1 := by
  induction l1 with
  | nil => simp [buscarPatron] at h
  | cons pt resto ih =>
    obtain ⟨patron, tipo⟩ := pt
    by_cases hc : coincide e patron = true
    · simp only [List.cons_append, buscarPatron, if_pos hc]
    · simp only [buscarPatron, if_neg hc] at h
      simp only [List.cons_append, buscarPatron, if_neg hc]
      exact ih h

/-- C9 counterexample: an exception whose lower-cased message contains
"connection timeout" but is classified as `NAVEGADOR_CERRADO`, not
`TIMOUT_ELEMENTO`, because the earlier "disconnected" pattern wins. -/
theorem clasificar_connection_timeout_contraejemplo :
    contiene (aMinusculas "disconnected: connection timeout") "connection timeout" = true ∧
    clasificar ⟨"disconnected: connection timeout", "Exception"⟩ = .NAVEGADOR_CERRADO ∧
    TipoError.NAVEGADOR_CERRADO ≠ TipoError.TIMEOUT_ELEMENTO := by
  refine ⟨by decide, by decide, by decide⟩

/-- C9 (amended): because the pattern table is scanned in order and "timeout"
precedes "connection timeout", an exception whose lower-cased message contains
"connection timeout" is classified as `TIMEOUT_ELEMENTO` provided none of the
10 patterns preceding "timeout" occurs in its message or type name; and the
"connection timeout" → `TIMEOUT_RED` entry is unreachable: no exception whose
message or type name contains "connection timeout" is ever classified as
`TIMEOUT_RED`. -/
theorem clasificar_connection_timeout_amendado :
    (∀ e : Exc,
      contiene (aMinusculas e.mensaje) "connection timeout" = true →
      (∀ pt ∈ patrones_error.take 10, coincide e pt.1 = false) →
      clasificar e = .TIMEOUT_ELEMENTO) ∧
    (∀ e : Exc,
      contiene (aMinusculas e.mensaje) "connection timeout" = true ∨
      contiene (aMinusculas e.tipoNombre) "connection timeout" = true →
      clasificar e ≠ .TIMEOUT_RED) := by
  have hseg : ("connection timeout" : String).toList =
      ("connection " : String).toList ++ ("timeout" : String).toList ++ [] := by decide
  constructor
  · intro e hct hprev
    have ht : contiene (aMinusculas e.mensaje) "timeout" = true :=
      contiene_de_super _ _ _ _ _ hseg hct
    have hco : coincide e "timeout" = true := by
      unfold coincide
      rw [ht]
      rfl
    have hscan : buscarPatron e patrones_error = some .TIMEOUT_ELEMENTO := by
      conv_lhs => rw [← List.take_append_drop 10 patrones_error]
      rw [buscarPatron_append_fallan e _ _ hprev]
      show buscarPatron e (("timeout", .TIMEOUT_ELEMENTO) :: _) = _
      rw [buscarPatron, if_pos hco]
    unfold clasificar
    rw [hscan]
  · intro e h
    have hco : coincide e "timeout" = true := by
      unfold coincide
      rcases h with h1 | h1
      · rw [contiene_de_super _ _ _ _ _ hseg h1]
        rfl
      · rw [contiene_de_super _ _ _ _ _ hseg h1]
        simp
    have hsome : (buscarPatron e (patrones_error.take 12)).isSome :=
      buscarPatron_isSome e _ ⟨("timeout", .TIMEOUT_ELEMENTO), by decide, hco⟩
    have hfull : buscarPatron e patrones_error = buscarPatron e (patrones_error.take 12) := by
      conv_lhs => rw [← List.take_append_drop 12 patrones_error]
      exact buscarPatron_append_isSome e _ _ hsome
    obtain ⟨t, ht⟩ := Option.isSome_iff_exists.mp hsome
    have hmem : t ∈ (patrones_error.take 12).map Prod.snd := buscarPatron_mem e _ t ht
    unfold clasificar
    rw [hfull, ht]
    show t ≠ TipoError.TIMEOUT_RED
    intro hcontra
    rw [hcontra] at hmem
    exact absurd hmem (by decide)

/-- Witness for `clasificar_connection_timeout_amendado`: a plain
"connection timeout ..." message matches no earlier pattern and classifies as
`TIMEOUT_ELEMENTO` (in particular not as `TIMEOUT_RED`). -/
theorem clasificar_connection_timeout_amendado_testigo :
    clasificar ⟨"connection timeout al consultar", "Exception"⟩ = .TIMEOUT_ELEMENTO ∧
    clasificar ⟨"connection timeout al consultar", "Exception"⟩ ≠ .TIMEOUT_RED :=
  ⟨clasificar_connection_timeout_amendado.1 ⟨"connection timeout al consultar", "Exception"⟩
      (by decide) (by decide),
   clasificar_connection_timeout_amendado.2 ⟨"connection timeout al consultar", "Exception"⟩
      (Or.inl (by decide))⟩

/-- Updating via `actualizar_progreso` bumps the processed counter by one and exactly one
of the success/failure counters, in every branch (including the completion
branch, which only changes the state tag and message). -/
theorem actualizar_progreso_contadores (s : Sesion) (exitoso : Bool) (m : String) :
    (actualizar_progreso s exitoso m).estado.items_procesados =
      s.estado.items_procesados + 1 ∧
    (actualizar_progreso s exitoso m).estado.items_exitosos =
      s.estado.items_exitosos + (if exitoso then 1 else 0) ∧
    (actualizar_progreso s exitoso m).estado.items_fallidos =
      s.estado.items_fallidos + (if exitoso then 0 else 1) := by
  unfold actualizar_progreso detener_sesion incrementar_procesado
  cases exitoso <;> dsimp only <;> (repeat' split) <;> simp

/-- C4: in the task-processing loop body, a task failure either keeps the
index (when the retry manager grants a retry for the task's current count,
which also bumps the task's retry count in place and leaves the session
counters untouched) or advances the index by exactly 1 while incrementing the
processed and failed counters by exactly 1 and leaving the success counter
unchanged. -/
theorem fallo_tarea_reintento_o_avance :
    ∀ (st : Ctrl) (indice : Nat) (e : Exc) (st' : Ctrl) (indice' : Nat),
    cuerpo_tarea st indice (.fallo e) = .ok (st', indice') →
    ((st.cola_tareas.getD indice default).reintentos <
        max_reintentos (clasificar e) →
      indice' = indice ∧
      st'.cola_tareas = st.cola_tareas.set indice
        { st.cola_tareas.getD indice default with
          reintentos := (st.cola_tareas.getD indice default).reintentos + 1 } ∧
      st'.sesion = st.sesion) ∧
    (¬ (st.cola_tareas.getD indice default).reintentos <
        max_reintentos (clasificar e) →
      indice' = indice + 1 ∧
      st'.cola_tareas = st.cola_tareas ∧
      st'.sesion.estado.items_fallidos = st.sesion.estado.items_fallidos + 1 ∧
      st'.sesion.estado.items_exitosos = st.sesion.estado.items_exitosos ∧
      st'.sesion.estado.items_procesados = st.sesion.estado.items_procesados + 1) := by
  intro st indice e st' indice' h
  by_cases hlt : (st.cola_tareas.getD indice default).reintentos <
      max_reintentos (clasificar e)
  · refine ⟨fun _ => ?_, fun hcon => absurd hlt hcon⟩
    simp only [cuerpo_tarea, puede_reintentar, if_pos hlt, if_true] at h
    rw [Except.ok.injEq, Prod.mk.injEq] at h
    obtain ⟨h1, h2⟩ := h
    subst h1
    subst h2
    exact ⟨rfl, rfl, rfl⟩
  · refine ⟨fun hcon => absurd hcon hlt, fun _ => ?_⟩
    simp only [cuerpo_tarea, puede_reintentar, if_neg hlt] at h
    rw [if_neg Bool.false_ne_true] at h
    rw [Except.ok.injEq, Prod.mk.injEq] at h
    obtain ⟨h1, h2⟩ := h
    subst h1
    subst h2
    obtain ⟨hp, he, hf⟩ := actualizar_progreso_contadores st.sesion false
      ("Tarea " ++ (st.cola_tareas.getD indice default).id ++ " falló")
    exact ⟨rfl, rfl, by simpa using hf, by simpa using he, hp⟩

/-- Witness for `fallo_tarea_reintento_o_avance`: a first `TIMEOUT_RED`
failure of the single pending task keeps the index at 0, bumps the task's
retry count and leaves the session untouched. -/
theorem fallo_tarea_reintento_o_avance_testigo :
    (0 : Nat) = 0 ∧
    ctrlUnaReintentada.cola_tareas = ctrlUna.cola_tareas.set 0
      { ctrlUna.cola_tareas.getD 0 default with
        reintentos := (ctrlUna.cola_tareas.getD 0 default).reintentos + 1 } ∧
    ctrlUnaReintentada.sesion = ctrlUna.sesion :=
  (fallo_tarea_reintento_o_avance ctrlUna 0 excRed ctrlUnaReintentada 0
      rfl).1 (by decide)

/-- Every retry budget in the table is at most 5 (the `TIMEOUT_RED` budget). -/
theorem max_reintentos_cota (tipo : TipoError) : max_reintentos tipo ≤ 5 := by
  cases tipo <;> decide

/-- One iteration of the task loop preserves the bound
"every task's retry count is at most 5": the only increment is guarded by the
classified kind's budget, which never exceeds 5. -/
theorem cuerpo_tarea_preserva_cota (st : Ctrl) (indice : Nat) (r : ResultadoTarea)
    (hinv : ∀ t ∈ st.cola_tareas, t.reintentos ≤ 5) :
    (∀ st' indice', cuerpo_tarea st indice r = .ok (st', indice') →
      ∀ t ∈ st'.cola_tareas, t.reintentos ≤ 5) ∧
    (∀ e st', cuerpo_tarea st indice r = .error (e, st') →
      ∀ t ∈ st'.cola_tareas, t.reintentos ≤ 5) := by
  cases r with
  | exito =>
    refine ⟨fun st' indice' h => ?_, fun e st' h => ?_⟩
    · simp only [cuerpo_tarea] at h
      rw [Except.ok.injEq, Prod.mk.injEq] at h
      obtain ⟨h1, _⟩ := h
      subst h1
      exact hinv
    · simp only [cuerpo_tarea] at h
      exact absurd h (by simp)
  | fallo e =>
    by_cases hlt : (st.cola_tareas.getD indice default).reintentos <
        max_reintentos (clasificar e)
    · refine ⟨fun st' indice' h => ?_, fun exc st' h => ?_⟩
      · simp only [cuerpo_tarea, puede_reintentar, if_pos hlt, if_true] at h
        rw [Except.ok.injEq, Prod.mk.injEq] at h
        obtain ⟨h1, _⟩ := h
        subst h1
        intro t ht
        rcases List.mem_or_eq_of_mem_set ht with hmem | rfl
        · exact hinv t hmem
        · exact Nat.le_trans hlt (max_reintentos_cota (clasificar e))
      · simp only [cuerpo_tarea, puede_reintentar, if_pos hlt, if_true] at h
        exact absurd h (by simp)
    · refine ⟨fun st' indice' h => ?_, fun exc st' h => ?_⟩
      · simp only [cuerpo_tarea, puede_reintentar, if_neg hlt] at h
        rw [if_neg Bool.false_ne_true] at h
        rw [Except.ok.injEq, Prod.mk.injEq] at h
        obtain ⟨h1, _⟩ := h
        subst h1
        exact hinv
      · simp only [cuerpo_tarea, puede_reintentar, if_neg hlt] at h
        rw [if_neg Bool.false_ne_true] at h
        exact absurd h (by simp)
  | excepcion e =>
    refine ⟨fun st' indice' h => ?_, fun exc st' h => ?_⟩
    · simp only [cuerpo_tarea] at h
      exact absurd h (by simp)
    · simp only [cuerpo_tarea] at h
      rw [Except.error.injEq, Prod.mk.injEq] at h
      obtain ⟨_, h2⟩ := h
      subst h2
      exact hinv

/-- C6 counterexample: running the single default task (`max_reintentos = 3`)
through six consecutive network-timeout failures leaves its retry count at 5,
violating "retry count ≤ max retries" — the controller consults the per-kind
budget of `GestorReintentos` (5 for `TIMEOUT_RED`), not the task's own bound. -/
theorem invariante_reintentos_contraejemplo :
    procesar_tareas ctrlUna 0 (List.replicate 6 (.fallo excRed)) =
      some (.ok ctrlSeis, []) ∧
    (ctrlSeis.cola_tareas.getD 0 default).reintentos = 5 ∧
    (ctrlSeis.cola_tareas.getD 0 default).max_reintentos = 3 ∧
    ¬ ((ctrlSeis.cola_tareas.getD 0 default).reintentos ≤
        (ctrlSeis.cola_tareas.getD 0 default).max_reintentos) := by
  refine ⟨rfl, by decide, by decide, by decide⟩

/-- C6 (amended): throughout a `_procesar_tareas` run, every task's retry
count stays at or below 5, the largest `max_reintentos` in the retry table —
the bound the controller actually enforces (it never reads the task's own
`max_reintentos` field). -/
theorem invariante_reintentos_amendado :
    ∀ (script : List ResultadoTarea) (st : Ctrl) (indice : Nat)
      (res : Except (Exc × Ctrl) Ctrl) (resto : List ResultadoTarea),
    procesar_tareas st indice script = some (res, resto) →
    (∀ t ∈ st.cola_tareas, t.reintentos ≤ 5) →
    ∀ t ∈ (estado_final res).cola_tareas, t.reintentos ≤ 5 := by
  intro script
  induction script with
  | nil =>
    intro st indice res resto h hinv
    simp only [procesar_tareas] at h
    split at h
    · exact absurd h (by simp)
    · rw [Option.some.injEq, Prod.mk.injEq] at h
      obtain ⟨h1, _⟩ := h
      subst h1
      exact hinv
  | cons r resto' ih =>
    intro st indice res resto h hinv
    simp only [procesar_tareas] at h
    split at h
    · cases hcu : cuerpo_tarea st indice r with
      | ok p =>
        obtain ⟨st', i'⟩ := p
        simp only [hcu] at h
        exact ih st' i' res resto h
          ((cuerpo_tarea_preserva_cota st indice r hinv).1 st' i' hcu)
      | error p =>
        obtain ⟨e, st'⟩ := p
        simp only [hcu] at h
        rw [Option.some.injEq, Prod.mk.injEq] at h
        obtain ⟨h1, _⟩ := h
        subst h1
        exact (cuerpo_tarea_preserva_cota st indice r hinv).2 e st' hcu
    · rw [Option.some.injEq, Prod.mk.injEq] at h
      obtain ⟨h1, _⟩ := h
      subst h1
      exact hinv

/-- Witness for `invariante_reintentos_amendado` on the six-failure run: the
final retry count of the task, 5, indeed satisfies the amended bound. -/
theorem invariante_reintentos_amendado_testigo :
    (ctrlSeis.cola_tareas.getD 0 default).reintentos ≤ 5 :=
  invariante_reintentos_amendado (List.replicate 6 (.fallo excRed)) ctrlUna 0
    (.ok ctrlSeis) [] rfl (by decide)
    (ctrlSeis.cola_tareas.getD 0 default) (by decide)

/-- C1: when `_ejecutar_con_recuperacion` exits through a failed recovery, or
through exhausting its 3 global attempts (stopping the session with the
definitive-failure message), `ejecutar` nevertheless returns `true` — the
inner method swallows the failure and `ejecutar` treats its normal return as
success. These are concrete evaluations of both failing runs. -/
theorem ejecutar_verdadero_en_fallo_definitivo :
    (ejecutar ctrlInicial [.excepcion excCritica] [false]).map Prod.fst =
      some true ∧
    (ejecutar ctrlInicial
        [.excepcion excCritica, .excepcion excCritica, .excepcion excCritica]
        [true, true]).map Prod.fst = some true ∧
    (ejecutar ctrlInicial
        [.excepcion excCritica, .excepcion excCritica, .excepcion excCritica]
        [true, true]).map (fun p => p.2.sesion.estado.mensaje_estado) =
      some "Fallo definitivo después de 3 intentos" :=
  ⟨rfl, rfl, rfl⟩
